import Mathlib

/-!
Verification development for the two resource implementations of this
repository: the Network Firewall TLS inspection configuration resource
(internal/service/networkfirewall/tls_inspection_configuration.go) and the
Service Catalog service action resource
(internal/service/servicecatalog/service_action.go).

Modelling conventions for the shallow embedding:
* a Terraform framework tri-state value (types.String, types.Int64) is an
  Option; none models the null value (unknown values never reach the
  mapper, the schema layer resolves them first).  ValueString on a null
  string returns the empty string, ValueInt64 on a null int returns 0,
  exactly as in the Go framework.
* a Terraform types.List is an Option (List alpha): none models the null
  list, some xs a known list with elements xs.
* a Go slice is an Option (List alpha): none models the nil slice,
  some xs a non-nil slice with elements xs (so some [] is the non-nil
  empty slice, distinguishable from nil, as in Go).
* a Go pointer field is an Option.
* Go append on a possibly-nil slice is goAppend below: appending to nil
  yields a non-nil one-element slice.
-/

/-- Terraform framework ValueString: the empty string when the value is null. -/
def valueString (o : Option String) : String := o.getD ""

/-- Terraform framework ValueInt64: zero when the value is null. -/
def valueInt64 (o : Option Int) : Int := o.getD 0

/-- Terraform framework ElementsAs: extracts the elements of a list value; a
null list yields no elements. -/
def elementsAs {α : Type} (l : Option (List α)) : List α := l.getD []

/-- Go append of one element onto a possibly-nil slice: the result is always
non-nil. -/
def goAppend {α : Type} (s : Option (List α)) (a : α) : Option (List α) :=
  some (s.getD [] ++ [a])

/-- Go len of a possibly-nil slice: nil and the empty slice both have length
zero. -/
def goLen {α : Type} (s : Option (List α)) : Nat := (s.getD []).length

/-- Go pattern used by every expander over a list block: start from the nil
slice and append one converted element per source element, in order. -/
def sliceOfList {α β : Type} (f : α → β) (l : List α) : Option (List β) :=
  l.foldl (fun acc a => goAppend acc (f a)) none

/-! ### Terraform side data (the tfsdk-tagged structs of the resource) -/

structure checkCertificateRevocationStatusData where
  revokedStatusAction : Option String
  unknownStatusAction : Option String
deriving DecidableEq, Repr

structure portRangeData where
  fromPort : Option Int
  toPort : Option Int
deriving DecidableEq, Repr

structure sourceDestinationData where
  addressDefinition : Option String
deriving DecidableEq, Repr

structure serverCertificatesData where
  resourceARN : Option String
deriving DecidableEq, Repr

structure scopeData where
  destinationPorts : Option (List portRangeData)
  destinations : Option (List sourceDestinationData)
  protocols : Option (List (Option Int))
  sourcePorts : Option (List portRangeData)
  sources : Option (List sourceDestinationData)
deriving DecidableEq, Repr

structure serverCertificateConfigurationsData where
  certificateAuthorityArn : Option String
  checkCertificateRevocationsStatus : Option (List checkCertificateRevocationStatusData)
  scope : Option (List scopeData)
  serverCertificates : Option (List serverCertificatesData)
deriving DecidableEq, Repr

structure tlsInspectionConfigurationData where
  serverCertificateConfiguration : Option (List serverCertificateConfigurationsData)
deriving DecidableEq, Repr

structure encryptionConfigurationData where
  type : Option String
  keyId : Option String
deriving DecidableEq, Repr

/-! ### API payload (the networkfirewall SDK structs); pointer fields are
Options, slice fields are Options of lists whose elements are Options where
the flatteners nil-check elements. -/

namespace NFW

structure CheckCertificateRevocationStatusActions where
  revokedStatusAction : Option String
  unknownStatusAction : Option String
deriving DecidableEq, Repr

structure PortRange where
  fromPort : Option Int
  toPort : Option Int
deriving DecidableEq, Repr

structure Address where
  addressDefinition : Option String
deriving DecidableEq, Repr

structure ServerCertificate where
  resourceArn : Option String
deriving DecidableEq, Repr

structure ServerCertificateScope where
  destinationPorts : Option (List (Option PortRange))
  destinations : Option (List (Option Address))
  protocols : Option (List (Option Int))
  sourcePorts : Option (List (Option PortRange))
  sources : Option (List (Option Address))
deriving DecidableEq, Repr

structure ServerCertificateConfiguration where
  certificateAuthorityArn : Option String
  checkCertificateRevocationStatus : Option CheckCertificateRevocationStatusActions
  scopes : Option (List (Option ServerCertificateScope))
  serverCertificates : Option (List (Option ServerCertificate))
deriving DecidableEq, Repr

structure TLSInspectionConfiguration where
  serverCertificateConfigurations : Option (List ServerCertificateConfiguration)
deriving DecidableEq, Repr

end NFW

/-! ### Expanders (declarative tree to API payload) -/

/-- Source: expandCheckCertificateRevocationStatus.  Uses only the head
element; both action strings are built with aws.String(ValueString), so a
null action becomes a pointer to the empty string. -/
def expandCheckCertificateRevocationStatus
    (tfList : List checkCertificateRevocationStatusData) :
    Option NFW.CheckCertificateRevocationStatusActions :=
  match tfList with
  | [] => none
  | tfObj :: _ =>
      some { revokedStatusAction := some (valueString tfObj.revokedStatusAction)
             unknownStatusAction := some (valueString tfObj.unknownStatusAction) }

/-- Source: expandServerCertificates.  Appends one element per entry onto a
nil slice; ResourceArn is always a non-nil pointer. -/
def expandServerCertificates (tfList : List serverCertificatesData) :
    Option (List (Option NFW.ServerCertificate)) :=
  sliceOfList (fun item => some { resourceArn := some (valueString item.resourceARN) }) tfList

/-- Source: expandPortRange. -/
def expandPortRange (tfList : List portRangeData) :
    Option (List (Option NFW.PortRange)) :=
  sliceOfList (fun tfObj => some { fromPort := some (valueInt64 tfObj.fromPort)
                                   toPort := some (valueInt64 tfObj.toPort) }) tfList

/-- Source: expandSourceDestinations. -/
def expandSourceDestinations (tfList : List sourceDestinationData) :
    Option (List (Option NFW.Address)) :=
  sliceOfList (fun tfObj => some { addressDefinition := some (valueString tfObj.addressDefinition) }) tfList

/-- Go guard pattern shared by the expanders: a nested field is expanded only
when the Terraform list value is not null, and left as the nil zero value
otherwise. -/
def expandOptList {α β : Type} (f : List α → Option β) (o : Option (List α)) : Option β :=
  match o with
  | none => none
  | some l => f l

/-- Source: the per-element body of expandScopes.  Each nested list field is
only expanded when the Terraform value is not null; a non-null protocols
list is passed through element by element (a non-null empty list stays a
non-nil empty slice), so the protocols field carries the Terraform value
over unchanged. -/
def expandScope (tfObj : scopeData) : NFW.ServerCertificateScope :=
  { protocols := tfObj.protocols
    destinationPorts := expandOptList expandPortRange tfObj.destinationPorts
    destinations := expandOptList expandSourceDestinations tfObj.destinations
    sourcePorts := expandOptList expandPortRange tfObj.sourcePorts
    sources := expandOptList expandSourceDestinations tfObj.sources }

/-- Source: expandScopes. -/
def expandScopes (tfList : List scopeData) :
    Option (List (Option NFW.ServerCertificateScope)) :=
  sliceOfList (fun tfObj => some (expandScope tfObj)) tfList

/-- Source: the per-element body of expandServerCertificateConfigurations.
Every optional sub-structure is expanded only when the Terraform value is
not null. -/
def expandServerCertificateConfigurationItem
    (item : serverCertificateConfigurationsData) : NFW.ServerCertificateConfiguration :=
  { certificateAuthorityArn := item.certificateAuthorityArn
    checkCertificateRevocationStatus :=
      expandOptList expandCheckCertificateRevocationStatus item.checkCertificateRevocationsStatus
    scopes := expandOptList expandScopes item.scope
    serverCertificates := expandOptList expandServerCertificates item.serverCertificates }

/-- Source: expandServerCertificateConfigurations. -/
def expandServerCertificateConfigurations
    (tfList : List serverCertificateConfigurationsData) :
    Option (List NFW.ServerCertificateConfiguration) :=
  sliceOfList expandServerCertificateConfigurationItem tfList

/-- Source: expandTLSInspectionConfiguration.  A nil payload for an empty
list; otherwise only the head element is used. -/
def expandTLSInspectionConfiguration (tfList : List tlsInspectionConfigurationData) :
    Option NFW.TLSInspectionConfiguration :=
  match tfList with
  | [] => none
  | tfObj :: _ =>
      some { serverCertificateConfigurations :=
               expandServerCertificateConfigurations
                 (elementsAs tfObj.serverCertificateConfiguration) }

/-! ### Flatteners (API payload to declarative tree) -/

/-- Source: flattenCheckCertificateRevocationStatus.  A nil pointer becomes a
null list; otherwise a one-element list. -/
def flattenCheckCertificateRevocationStatus
    (c : Option NFW.CheckCertificateRevocationStatusActions) :
    Option (List checkCertificateRevocationStatusData) :=
  match c with
  | none => none
  | some a => some [{ revokedStatusAction := a.revokedStatusAction
                      unknownStatusAction := a.unknownStatusAction }]

/-- Source: flattenServerCertificates.  A slice of length zero (nil or empty)
becomes a null list; nil elements are skipped. -/
def flattenServerCertificates
    (serverCertificateList : Option (List (Option NFW.ServerCertificate))) :
    Option (List serverCertificatesData) :=
  if goLen serverCertificateList = 0 then none
  else some ((serverCertificateList.getD []).filterMap
    (fun o => o.map (fun sc => { resourceARN := sc.resourceArn })))

/-- Source: flattenPortRange.  Length-zero check, nil elements skipped. -/
def flattenPortRange (ranges : Option (List (Option NFW.PortRange))) :
    Option (List portRangeData) :=
  if goLen ranges = 0 then none
  else some ((ranges.getD []).filterMap
    (fun o => o.map (fun pr => { fromPort := pr.fromPort, toPort := pr.toPort })))

/-- Source: flattenSourceDestinations.  Length-zero check, nil elements
skipped. -/
def flattenSourceDestinations (destinations : Option (List (Option NFW.Address))) :
    Option (List sourceDestinationData) :=
  if goLen destinations = 0 then none
  else some ((destinations.getD []).filterMap
    (fun o => o.map (fun a => { addressDefinition := a.addressDefinition })))

/-- Source: flattenProtocols.  Length-zero check, nil elements skipped, the
surviving elements are known values. -/
def flattenProtocols (list : Option (List (Option Int))) :
    Option (List (Option Int)) :=
  if goLen list = 0 then none
  else some ((list.getD []).filterMap (fun o => o.map some))

/-- Source: the per-element body of flattenScopes. -/
def flattenScope (scope : NFW.ServerCertificateScope) : scopeData :=
  { destinationPorts := flattenPortRange scope.destinationPorts
    destinations := flattenSourceDestinations scope.destinations
    protocols := flattenProtocols scope.protocols
    sourcePorts := flattenPortRange scope.sourcePorts
    sources := flattenSourceDestinations scope.sources }

/-- Source: flattenScopes.  Length-zero check, nil elements skipped. -/
def flattenScopes (scopes : Option (List (Option NFW.ServerCertificateScope))) :
    Option (List scopeData) :=
  if goLen scopes = 0 then none
  else some ((scopes.getD []).filterMap (fun o => o.map flattenScope))

/-- Source: the per-element body of flattenServerCertificateConfigurations;
elements are dereferenced without a nil check. -/
def flattenServerCertificateConfigurationItem
    (c : NFW.ServerCertificateConfiguration) : serverCertificateConfigurationsData :=
  { certificateAuthorityArn := c.certificateAuthorityArn
    checkCertificateRevocationsStatus :=
      flattenCheckCertificateRevocationStatus c.checkCertificateRevocationStatus
    scope := flattenScopes c.scopes
    serverCertificates := flattenServerCertificates c.serverCertificates }

/-- Source: flattenServerCertificateConfigurations.  Unlike every other
flatten helper this one checks the slice against nil, not against length
zero: a non-nil empty slice falls through to the loop and produces an empty
known list. -/
def flattenServerCertificateConfigurations
    (serverCertificateConfigurations : Option (List NFW.ServerCertificateConfiguration)) :
    Option (List serverCertificateConfigurationsData) :=
  match serverCertificateConfigurations with
  | none => none
  | some l => some (l.map flattenServerCertificateConfigurationItem)

/-- Source: flattenTLSInspectionConfiguration.  A nil payload becomes a null
list; otherwise a one-element list. -/
def flattenTLSInspectionConfiguration
    (tlsInspectionConfiguration : Option NFW.TLSInspectionConfiguration) :
    Option (List tlsInspectionConfigurationData) :=
  match tlsInspectionConfiguration with
  | none => none
  | some t => some [{ serverCertificateConfiguration :=
                        flattenServerCertificateConfigurations
                          t.serverCertificateConfigurations }]

/-! ### Service Catalog service action mapper (service_action.go) -/

/-- Terraform SDK side of the service action definition block: the Go value
is a map keyed by attribute name; a field is none when the key is absent
(or not a string).  The type key is carried alongside the four definition
keys. -/
structure serviceActionDefinitionMap where
  assumeRole : Option String
  name : Option String
  parameters : Option String
  version : Option String
  type : Option String
deriving DecidableEq, Repr

/-- API side of the service action definition: a map from the four
definition keys to string pointers.  The outer Option is key presence, the
inner Option is pointer nilness. -/
structure ServiceActionDefinitionPayload where
  assumeRole : Option (Option String)
  name : Option (Option String)
  parameters : Option (Option String)
  version : Option (Option String)
deriving DecidableEq, Repr

/-- Source: the per-key pattern of expandServiceActionDefinition: the key is
written only when present and non-empty, and always with a non-nil
pointer. -/
def expandServiceActionEntry (v : Option String) : Option (Option String) :=
  match v with
  | none => none
  | some s => if s = "" then none else some (some s)

/-- Source: expandServiceActionDefinition.  A nil input map yields a nil
payload; the type key is not copied into the payload. -/
def expandServiceActionDefinition (tfMap : Option serviceActionDefinitionMap) :
    Option ServiceActionDefinitionPayload :=
  match tfMap with
  | none => none
  | some t =>
      some { assumeRole := expandServiceActionEntry t.assumeRole
             name := expandServiceActionEntry t.name
             parameters := expandServiceActionEntry t.parameters
             version := expandServiceActionEntry t.version }

/-- Source: the per-key pattern of flattenServiceActionDefinition: the key is
written only when present in the payload with a non-nil pointer. -/
def flattenServiceActionEntry (e : Option (Option String)) : Option String :=
  match e with
  | some (some s) => some s
  | _ => none

/-- Source: flattenServiceActionDefinition.  A nil payload yields a nil map;
the type key is restored from the separately passed definition type when
that is non-empty. -/
def flattenServiceActionDefinition (apiObject : Option ServiceActionDefinitionPayload)
    (definitionType : String) : Option serviceActionDefinitionMap :=
  match apiObject with
  | none => none
  | some a =>
      some { assumeRole := flattenServiceActionEntry a.assumeRole
             name := flattenServiceActionEntry a.name
             parameters := flattenServiceActionEntry a.parameters
             version := flattenServiceActionEntry a.version
             type := if definitionType = "" then none else some definitionType }

/-! ### Canonical trees: the domain on which the mappers round-trip -/

/-- List wellformedness used by the canonical predicates: a Terraform list is
either null or non-empty with every element wellformed.  The expanders map
a known empty list and a null list to the same nil payload, so known empty
lists cannot round-trip. -/
def listOk {α : Type} (p : α → Bool) : Option (List α) → Bool
  | none => true
  | some l => !l.isEmpty && l.all p

/-- Canonical port range: both ports known (the expander dereferences both
with ValueInt64). -/
def portRangeOk (o : portRangeData) : Bool :=
  o.fromPort.isSome && o.toPort.isSome

/-- Canonical address: the address definition is known. -/
def sourceDestinationOk (o : sourceDestinationData) : Bool :=
  o.addressDefinition.isSome

/-- Canonical server certificate: the resource ARN is known. -/
def serverCertificateOk (o : serverCertificatesData) : Bool :=
  o.resourceARN.isSome

/-- Canonical revocation status block: null, or a single element with both
actions known (the expander reads only the head and dereferences both
actions, the flattener emits a single element). -/
def checkCertificateRevocationStatusOk :
    Option (List checkCertificateRevocationStatusData) → Bool
  | none => true
  | some [o] => o.revokedStatusAction.isSome && o.unknownStatusAction.isSome
  | some _ => false

/-- Canonical scope: every nested list null or non-empty, protocol elements
known. -/
def scopeOk (o : scopeData) : Bool :=
  listOk (fun p : Option Int => p.isSome) o.protocols &&
  listOk portRangeOk o.destinationPorts &&
  listOk sourceDestinationOk o.destinations &&
  listOk portRangeOk o.sourcePorts &&
  listOk sourceDestinationOk o.sources

/-- Canonical server certificate configuration. -/
def serverCertificateConfigurationOk (o : serverCertificateConfigurationsData) : Bool :=
  checkCertificateRevocationStatusOk o.checkCertificateRevocationsStatus &&
  listOk scopeOk o.scope &&
  listOk serverCertificateOk o.serverCertificates

/-- Canonical TLS inspection configuration element. -/
def tlsInspectionConfigurationDataOk (o : tlsInspectionConfigurationData) : Bool :=
  listOk serverCertificateConfigurationOk o.serverCertificateConfiguration

/-- Canonical service action definition map: every present entry is a
non-empty string (expand drops empty-string entries, so they cannot
round-trip). -/
def serviceActionDefinitionMapOk (t : serviceActionDefinitionMap) : Bool :=
  t.assumeRole.getD "x" ≠ "" && t.name.getD "x" ≠ "" &&
  t.parameters.getD "x" ≠ "" && t.version.getD "x" ≠ "" && t.type.getD "x" ≠ ""

/-! ### Round-trip lemmas for the canonical domain -/

lemma sliceOfList_aux {α β : Type} (f : α → β) (l : List α) (ys : List β) :
    l.foldl (fun acc a => goAppend acc (f a)) (some ys) = some (ys ++ l.map f) := by
  induction l generalizing ys with
  | nil => simp
  | cons a t ih =>
      rw [List.foldl_cons]
      have h1 : goAppend (some ys) (f a) = some (ys ++ [f a]) := rfl
      rw [h1, ih]
      simp

lemma sliceOfList_eq_map {α β : Type} (f : α → β) (l : List α) (h : l ≠ []) :
    sliceOfList f l = some (l.map f) := by
  cases l with
  | nil => exact absurd rfl h
  | cons a t =>
      rw [sliceOfList, List.foldl_cons]
      have h1 : goAppend none (f a) = some [f a] := rfl
      rw [h1, sliceOfList_aux]
      simp

lemma listOk_some {α : Type} (p : α → Bool) (l : List α)
    (h : listOk p (some l) = true) : l ≠ [] ∧ l.all p = true := by
  cases l with
  | nil => simp [listOk] at h
  | cons a t =>
      refine ⟨by simp, ?_⟩
      simpa [listOk] using h

lemma filterMap_roundtrip {α β : Type} (F : α → Option β) (g : β → α) (p : α → Bool)
    (hfg : ∀ a, p a = true → (F a).map g = some a) :
    ∀ l : List α, l.all p = true →
      (l.map F).filterMap (fun o => o.map g) = l := by
  intro l
  induction l with
  | nil => simp
  | cons a t ih =>
      intro h
      simp only [List.all_cons, Bool.and_eq_true] at h
      simp only [List.map_cons, List.filterMap_cons, hfg a h.1, ih h.2]

lemma map_map_id {α β : Type} (e : α → β) (f : β → α) (p : α → Bool)
    (hfe : ∀ a, p a = true → f (e a) = a) :
    ∀ l : List α, l.all p = true → (l.map e).map f = l := by
  intro l
  induction l with
  | nil => simp
  | cons a t ih =>
      intro h
      simp only [List.all_cons, Bool.and_eq_true] at h
      simp only [List.map_cons, hfe a h.1, ih h.2]

lemma filterMap_map_some_id (l : List (Option Int))
    (h : l.all Option.isSome = true) :
    l.filterMap (fun o => o.map some) = l := by
  induction l with
  | nil => simp
  | cons a t ih =>
      simp only [List.all_cons, Bool.and_eq_true] at h
      cases a with
      | none => simp at h
      | some n =>
          rw [List.filterMap_cons]
          simp [ih h.2]

lemma flattenPortRange_expandPortRange (l : List portRangeData)
    (hne : l ≠ []) (hall : l.all portRangeOk = true) :
    flattenPortRange (expandPortRange l) = some l := by
  rw [expandPortRange, sliceOfList_eq_map _ _ hne, flattenPortRange]
  rw [if_neg (by simp [goLen, List.length_eq_zero]; exact hne)]
  simp only [Option.getD_some]
  congr 1
  refine filterMap_roundtrip _ _ portRangeOk ?_ l hall
  intro o ho
  rcases o with ⟨fp, tp⟩
  simp only [portRangeOk, Bool.and_eq_true, Option.isSome_iff_exists] at ho
  obtain ⟨⟨n, hn⟩, ⟨m, hm⟩⟩ := ho
  subst hn
  subst hm
  simp [valueInt64]

lemma flattenSourceDestinations_expandSourceDestinations (l : List sourceDestinationData)
    (hne : l ≠ []) (hall : l.all sourceDestinationOk = true) :
    flattenSourceDestinations (expandSourceDestinations l) = some l := by
  rw [expandSourceDestinations, sliceOfList_eq_map _ _ hne, flattenSourceDestinations]
  rw [if_neg (by simp [goLen, List.length_eq_zero]; exact hne)]
  simp only [Option.getD_some]
  congr 1
  refine filterMap_roundtrip _ _ sourceDestinationOk ?_ l hall
  intro o ho
  rcases o with ⟨ad⟩
  simp only [sourceDestinationOk, Option.isSome_iff_exists] at ho
  obtain ⟨s, hs⟩ := ho
  subst hs
  simp [valueString]

lemma flattenServerCertificates_expandServerCertificates (l : List serverCertificatesData)
    (hne : l ≠ []) (hall : l.all serverCertificateOk = true) :
    flattenServerCertificates (expandServerCertificates l) = some l := by
  rw [expandServerCertificates, sliceOfList_eq_map _ _ hne, flattenServerCertificates]
  rw [if_neg (by simp [goLen, List.length_eq_zero]; exact hne)]
  simp only [Option.getD_some]
  congr 1
  refine filterMap_roundtrip _ _ serverCertificateOk ?_ l hall
  intro o ho
  rcases o with ⟨arn⟩
  simp only [serverCertificateOk, Option.isSome_iff_exists] at ho
  obtain ⟨s, hs⟩ := ho
  subst hs
  simp [valueString]

lemma flattenPortRange_opt (o : Option (List portRangeData))
    (h : listOk portRangeOk o = true) :
    flattenPortRange (expandOptList expandPortRange o) = o := by
  cases o with
  | none => simp [expandOptList, flattenPortRange, goLen]
  | some l =>
      obtain ⟨hne, hall⟩ := listOk_some _ _ h
      exact flattenPortRange_expandPortRange l hne hall

lemma flattenSourceDestinations_opt (o : Option (List sourceDestinationData))
    (h : listOk sourceDestinationOk o = true) :
    flattenSourceDestinations (expandOptList expandSourceDestinations o) = o := by
  cases o with
  | none => simp [expandOptList, flattenSourceDestinations, goLen]
  | some l =>
      obtain ⟨hne, hall⟩ := listOk_some _ _ h
      exact flattenSourceDestinations_expandSourceDestinations l hne hall

lemma flattenProtocols_opt (o : Option (List (Option Int)))
    (h : listOk (fun p : Option Int => p.isSome) o = true) :
    flattenProtocols o = o := by
  cases o with
  | none => simp [flattenProtocols, goLen]
  | some ps =>
      obtain ⟨hne, hall⟩ := listOk_some _ _ h
      rw [flattenProtocols]
      rw [if_neg (by simp [goLen, List.length_eq_zero]; exact hne)]
      simp only [Option.getD_some]
      rw [filterMap_map_some_id ps hall]

lemma flattenScope_expandScope (o : scopeData) (h : scopeOk o = true) :
    flattenScope (expandScope o) = o := by
  rcases o with ⟨dp, ds, pr, sp, ss⟩
  simp only [scopeOk, Bool.and_eq_true] at h
  obtain ⟨⟨⟨⟨hpr, hdp⟩, hds⟩, hsp⟩, hss⟩ := h
  simp only [expandScope, flattenScope, scopeData.mk.injEq]
  exact ⟨flattenPortRange_opt dp hdp, flattenSourceDestinations_opt ds hds,
    flattenProtocols_opt pr hpr, flattenPortRange_opt sp hsp,
    flattenSourceDestinations_opt ss hss⟩

lemma flattenScopes_expandScopes (l : List scopeData)
    (hne : l ≠ []) (hall : l.all scopeOk = true) :
    flattenScopes (expandScopes l) = some l := by
  rw [expandScopes, sliceOfList_eq_map _ _ hne, flattenScopes]
  rw [if_neg (by simp [goLen, List.length_eq_zero]; exact hne)]
  simp only [Option.getD_some]
  congr 1
  refine filterMap_roundtrip _ _ scopeOk ?_ l hall
  intro o ho
  simp [flattenScope_expandScope o ho]

lemma flattenServerCertificates_opt (o : Option (List serverCertificatesData))
    (h : listOk serverCertificateOk o = true) :
    flattenServerCertificates (expandOptList expandServerCertificates o) = o := by
  cases o with
  | none => simp [expandOptList, flattenServerCertificates, goLen]
  | some l =>
      obtain ⟨hne, hall⟩ := listOk_some _ _ h
      exact flattenServerCertificates_expandServerCertificates l hne hall

lemma flattenScopes_opt (o : Option (List scopeData))
    (h : listOk scopeOk o = true) :
    flattenScopes (expandOptList expandScopes o) = o := by
  cases o with
  | none => simp [expandOptList, flattenScopes, goLen]
  | some l =>
      obtain ⟨hne, hall⟩ := listOk_some _ _ h
      exact flattenScopes_expandScopes l hne hall

lemma flattenCheckCertificateRevocationStatus_opt
    (c : Option (List checkCertificateRevocationStatusData))
    (h : checkCertificateRevocationStatusOk c = true) :
    flattenCheckCertificateRevocationStatus
      (expandOptList expandCheckCertificateRevocationStatus c) = c := by
  cases c with
  | none => rfl
  | some l =>
      cases l with
      | nil => simp [checkCertificateRevocationStatusOk] at h
      | cons o t =>
          cases t with
          | cons o2 t2 => simp [checkCertificateRevocationStatusOk] at h
          | nil =>
              rcases o with ⟨r, u⟩
              simp only [checkCertificateRevocationStatusOk, Bool.and_eq_true,
                Option.isSome_iff_exists] at h
              obtain ⟨⟨a, ha⟩, ⟨b, hb⟩⟩ := h
              subst ha
              subst hb
              simp [expandOptList, expandCheckCertificateRevocationStatus,
                flattenCheckCertificateRevocationStatus, valueString]

lemma flattenSCCItem_expandSCCItem (item : serverCertificateConfigurationsData)
    (h : serverCertificateConfigurationOk item = true) :
    flattenServerCertificateConfigurationItem
      (expandServerCertificateConfigurationItem item) = item := by
  rcases item with ⟨ca, ccrs, sc, certs⟩
  simp only [serverCertificateConfigurationOk, Bool.and_eq_true] at h
  obtain ⟨⟨h1, h2⟩, h3⟩ := h
  simp only [expandServerCertificateConfigurationItem,
    flattenServerCertificateConfigurationItem]
  rw [flattenCheckCertificateRevocationStatus_opt ccrs h1,
    flattenScopes_opt sc h2, flattenServerCertificates_opt certs h3]

lemma flattenSCCs_expandSCCs (l : List serverCertificateConfigurationsData)
    (hne : l ≠ []) (hall : l.all serverCertificateConfigurationOk = true) :
    flattenServerCertificateConfigurations
      (expandServerCertificateConfigurations l) = some l := by
  rw [expandServerCertificateConfigurations, sliceOfList_eq_map _ _ hne]
  simp only [flattenServerCertificateConfigurations]
  congr 1
  exact map_map_id _ _ serverCertificateConfigurationOk
    flattenSCCItem_expandSCCItem l hall

lemma tls_roundtrip_canonical_aux (x : tlsInspectionConfigurationData)
    (hx : tlsInspectionConfigurationDataOk x = true) :
    flattenTLSInspectionConfiguration (expandTLSInspectionConfiguration [x]) = some [x] := by
  rcases x with ⟨sccs⟩
  cases sccs with
  | none => rfl
  | some l =>
      simp only [tlsInspectionConfigurationDataOk] at hx
      obtain ⟨hne, hall⟩ := listOk_some _ _ hx
      simp only [expandTLSInspectionConfiguration, elementsAs, Option.getD_some]
      simp only [flattenTLSInspectionConfiguration]
      rw [flattenSCCs_expandSCCs l hne hall]

lemma serviceActionEntry_roundtrip (v : Option String) (hv : v.getD "x" ≠ "") :
    flattenServiceActionEntry (expandServiceActionEntry v) = v := by
  cases v with
  | none => rfl
  | some s =>
      simp only [Option.getD_some] at hv
      simp [expandServiceActionEntry, flattenServiceActionEntry, hv]

lemma serviceAction_roundtrip_aux (m : serviceActionDefinitionMap)
    (hm : serviceActionDefinitionMapOk m = true) :
    flattenServiceActionDefinition (expandServiceActionDefinition (some m))
      (valueString m.type) = some m := by
  rcases m with ⟨ar, nm, pa, ve, ty⟩
  simp only [serviceActionDefinitionMapOk, Bool.and_eq_true, decide_eq_true_eq] at hm
  obtain ⟨⟨⟨⟨h1, h2⟩, h3⟩, h4⟩, h5⟩ := hm
  simp only [expandServiceActionDefinition, flattenServiceActionDefinition]
  rw [serviceActionEntry_roundtrip ar h1, serviceActionEntry_roundtrip nm h2,
    serviceActionEntry_roundtrip pa h3, serviceActionEntry_roundtrip ve h4]
  cases ty with
  | none => simp [valueString]
  | some s =>
      simp only [Option.getD_some] at h5
      simp [valueString, h5]

/-! ### Claim C1 -/

/-- C1 counterexample: the round-trip claim fails as stated.  A syntactically
valid tree with a present check_certificate_revocation_status block whose two
optional action strings are null (no field of it is dropped by the remote
service) does not round-trip: the expander sends both actions as pointers to
the empty string, so the flattened tree carries known empty strings where the
input had nulls. -/
theorem mapper_roundtrip_fails_on_null_revocation_actions :
    ¬ (flattenTLSInspectionConfiguration (expandTLSInspectionConfiguration
        [{ serverCertificateConfiguration := some
            [{ certificateAuthorityArn := none
               checkCertificateRevocationsStatus := some
                 [{ revokedStatusAction := none, unknownStatusAction := none }]
               scope := none
               serverCertificates := none }] }]) =
      some [{ serverCertificateConfiguration := some
                [{ certificateAuthorityArn := none
                   checkCertificateRevocationsStatus := some
                     [{ revokedStatusAction := none, unknownStatusAction := none }]
                   scope := none
                   serverCertificates := none }] }]) := by decide

/-- C1 (amended): flatten after expand is the identity on canonical trees.
For the TLS inspection configuration mapper the tree must be a singleton
top-level list whose nested lists are each either null or non-empty, whose
check_certificate_revocation_status block (when present) is a singleton with
both actions known, and whose expander-dereferenced optional scalars (ports,
addresses, certificate resource ARNs, protocol elements) are known.  For the
service action definition mapper every present map entry must be a non-empty
string and flattening uses the definition type carried by the tree itself. -/
theorem mapper_roundtrip_canonical :
    (∀ x : tlsInspectionConfigurationData, tlsInspectionConfigurationDataOk x = true →
      flattenTLSInspectionConfiguration (expandTLSInspectionConfiguration [x]) = some [x]) ∧
    (∀ m : serviceActionDefinitionMap, serviceActionDefinitionMapOk m = true →
      flattenServiceActionDefinition (expandServiceActionDefinition (some m))
        (valueString m.type) = some m) :=
  ⟨tls_roundtrip_canonical_aux, serviceAction_roundtrip_aux⟩

/-- Canonical TLS inspection configuration used as the round-trip witness. -/
def tlsCanonicalExample : tlsInspectionConfigurationData :=
  { serverCertificateConfiguration := some
      [{ certificateAuthorityArn := some "arn:aws:acm-pca:us-east-1:123456789012:certificate-authority/ca"
         checkCertificateRevocationsStatus := some
           [{ revokedStatusAction := some "REJECT", unknownStatusAction := some "PASS" }]
         scope := some
           [{ destinationPorts := some [{ fromPort := some 443, toPort := some 443 }]
              destinations := some [{ addressDefinition := some "10.0.0.0/16" }]
              protocols := some [some 6]
              sourcePorts := some [{ fromPort := some 1024, toPort := some 65535 }]
              sources := some [{ addressDefinition := some "0.0.0.0/0" }] }]
         serverCertificates := some
           [{ resourceARN := some "arn:aws:acm:us-east-1:123456789012:certificate/cert" }] }] }

/-- Canonical service action definition used as the round-trip witness. -/
def serviceActionCanonicalExample : serviceActionDefinitionMap :=
  { assumeRole := some "arn:aws:iam::123456789012:role/run"
    name := some "AWS-RestartEC2Instance"
    parameters := none
    version := some "1"
    type := some "SSM_AUTOMATION" }

/-- C1 witness: the amended round-trip theorem applied at concrete canonical
inputs, with both canonicality hypotheses discharged by evaluation. -/
theorem mapper_roundtrip_canonical_witness :
    (tlsInspectionConfigurationDataOk tlsCanonicalExample = true ∧
      flattenTLSInspectionConfiguration
        (expandTLSInspectionConfiguration [tlsCanonicalExample]) = some [tlsCanonicalExample]) ∧
    (serviceActionDefinitionMapOk serviceActionCanonicalExample = true ∧
      flattenServiceActionDefinition
        (expandServiceActionDefinition (some serviceActionCanonicalExample))
        (valueString serviceActionCanonicalExample.type) = some serviceActionCanonicalExample) :=
  ⟨⟨by decide, mapper_roundtrip_canonical.1 tlsCanonicalExample (by decide)⟩,
   ⟨by decide, mapper_roundtrip_canonical.2 serviceActionCanonicalExample (by decide)⟩⟩

/-! ### Claim C3 -/

/-- C3 counterexample: flattenServerCertificateConfigurations does not map the
empty non-nil slice to the null list.  It checks the slice against nil only,
so the empty non-nil slice falls through to the element loop and yields an
empty known list, different from the null list produced for the nil slice. -/
theorem flattenSCC_empty_slice_neq_nil :
    flattenServerCertificateConfigurations (some []) = some [] ∧
    flattenServerCertificateConfigurations none = none ∧
    flattenServerCertificateConfigurations (some []) ≠
      flattenServerCertificateConfigurations none := by decide

/-- C3 (amended): every length-checking flatten helper over a list-typed
payload field maps the nil slice and the empty non-nil slice to the same null
list, but flattenServerCertificateConfigurations is the exception: it
nil-checks only, so the empty non-nil slice becomes an empty known list. -/
theorem flatten_empty_vs_nil_equivalence :
    flattenServerCertificates (some []) = none ∧ flattenServerCertificates none = none ∧
    flattenScopes (some []) = none ∧ flattenScopes none = none ∧
    flattenProtocols (some []) = none ∧ flattenProtocols none = none ∧
    flattenSourceDestinations (some []) = none ∧ flattenSourceDestinations none = none ∧
    flattenPortRange (some []) = none ∧ flattenPortRange none = none ∧
    flattenServerCertificateConfigurations none = none ∧
    flattenServerCertificateConfigurations (some []) = some [] := by decide

/-! ### Remote describe model, finders and the status prober -/

inductive AwsError
  | resourceNotFoundException
  | internalServiceError (msg : String)
deriving DecidableEq, Repr

structure TLSInspectionConfigurationResponseData where
  tlsInspectionConfigurationArn : Option String
  tlsInspectionConfigurationId : Option String
  tlsInspectionConfigurationName : Option String
  tlsInspectionConfigurationStatus : Option String
  description : Option String
  numberOfAssociations : Option Int
  lastModifiedTime : Option String
deriving DecidableEq, Repr

structure DescribeTLSInspectionConfigurationOutput where
  tlsInspectionConfigurationResponse : Option TLSInspectionConfigurationResponseData
  tlsInspectionConfiguration : Option NFW.TLSInspectionConfiguration
  updateToken : Option String
deriving DecidableEq, Repr

/-- Outcome of one DescribeTLSInspectionConfiguration wire call: either an
output pointer (possibly nil) or a service error. -/
inductive DescribeResult
  | ok (out : Option DescribeTLSInspectionConfigurationOutput)
  | err (e : AwsError)
deriving DecidableEq, Repr

/-- Error taxonomy of the finders: the distinguished retry NotFoundError
wrapper, the empty-result error, or a passed-through remote error. -/
inductive FindError
  | notFoundError (lastError : AwsError)
  | emptyResultError
  | remote (e : AwsError)
deriving DecidableEq, Repr

/-- Source: findTLSInspectionConfigurationByNameAndARN.  A
ResourceNotFoundException is wrapped into the distinguished NotFoundError; a
nil output or nil response field is an empty-result error; any other error is
passed through. -/
def findTLSInspectionConfigurationByNameAndARN (wire : DescribeResult) :
    Except FindError DescribeTLSInspectionConfigurationOutput :=
  match wire with
  | .err .resourceNotFoundException =>
      .error (.notFoundError .resourceNotFoundException)
  | .err e => .error (.remote e)
  | .ok none => .error .emptyResultError
  | .ok (some out) =>
      match out.tlsInspectionConfigurationResponse with
      | none => .error .emptyResultError
      | some _ => .ok out

/-- Source: findTLSInspectionConfigurationByID, textually identical to the
ByNameAndARN finder (the id is the ARN). -/
def findTLSInspectionConfigurationByID (wire : DescribeResult) :
    Except FindError DescribeTLSInspectionConfigurationOutput :=
  match wire with
  | .err .resourceNotFoundException =>
      .error (.notFoundError .resourceNotFoundException)
  | .err e => .error (.remote e)
  | .ok none => .error .emptyResultError
  | .ok (some out) =>
      match out.tlsInspectionConfigurationResponse with
      | none => .error .emptyResultError
      | some _ => .ok out

/-- Modelled from the spec: the tfresource.NotFound helper (not part of the
two source files) recognises exactly the distinguished not-found signal, the
retry NotFoundError wrapper; the empty-result error and remote errors are not
not-found. -/
def tfresourceIsNotFound : FindError → Bool
  | .notFoundError _ => true
  | _ => false

/-- Go aws.ToString of the status field reached through the response pointer. -/
def describeOutputStatus (out : DescribeTLSInspectionConfigurationOutput) : String :=
  valueString (out.tlsInspectionConfigurationResponse.bind
    (fun r => r.tlsInspectionConfigurationStatus))

structure ProbeResult where
  value : Option DescribeTLSInspectionConfigurationOutput
  status : String
  err : Option FindError
deriving DecidableEq, Repr

/-- Remote connection: the wire response to the k-th describe call. -/
structure NetworkFirewallConn where
  describeResponses : Nat → DescribeResult

/-- Source: the body of the closure returned by
statusTLSInspectionConfiguration, applied to one wire response: a not-found
find result becomes the sentinel gone probe (nil value, empty status, nil
error); any other find error is propagated; a found object carries its
status string. -/
def statusProbeTLSInspectionConfiguration (wire : DescribeResult) : ProbeResult :=
  match findTLSInspectionConfigurationByNameAndARN wire with
  | .error e =>
      if tfresourceIsNotFound e then ⟨none, "", none⟩ else ⟨none, "", some e⟩
  | .ok out => ⟨some out, describeOutputStatus out, none⟩

/-- Source: statusTLSInspectionConfiguration.  One invocation issues exactly
one describe call (through the finder) and no internal retry: the call
counter advances by one. -/
def statusTLSInspectionConfiguration (conn : NetworkFirewallConn) (calls : Nat) :
    ProbeResult × Nat :=
  (statusProbeTLSInspectionConfiguration (conn.describeResponses calls), calls + 1)

/-! ### Claim C6 -/

/-- C6: each invocation of the status prober performs exactly one remote
lookup (the call counter advances by exactly one, with no internal retry),
a confirmed-absent result is returned as the sentinel gone outcome carrying
no error, and every other failure (remote error, empty result) is propagated
as an error, distinct from the sentinel. -/
theorem status_prober_single_lookup_and_gone_sentinel :
    ∀ (conn : NetworkFirewallConn) (calls : Nat),
      (statusTLSInspectionConfiguration conn calls).2 = calls + 1 ∧
      (conn.describeResponses calls = .err .resourceNotFoundException →
        (statusTLSInspectionConfiguration conn calls).1 = ⟨none, "", none⟩) ∧
      (∀ msg, conn.describeResponses calls = .err (.internalServiceError msg) →
        (statusTLSInspectionConfiguration conn calls).1 =
          ⟨none, "", some (.remote (.internalServiceError msg))⟩) ∧
      (conn.describeResponses calls = .ok none →
        (statusTLSInspectionConfiguration conn calls).1 =
          ⟨none, "", some .emptyResultError⟩) ∧
      (∀ out r, conn.describeResponses calls = .ok (some out) →
        out.tlsInspectionConfigurationResponse = some r →
        (statusTLSInspectionConfiguration conn calls).1 =
          ⟨some out, describeOutputStatus out, none⟩) := by
  intro conn calls
  refine ⟨rfl, ?_, ?_, ?_, ?_⟩
  · intro h
    simp [statusTLSInspectionConfiguration, statusProbeTLSInspectionConfiguration,
      findTLSInspectionConfigurationByNameAndARN, tfresourceIsNotFound, h]
  · intro msg h
    simp [statusTLSInspectionConfiguration, statusProbeTLSInspectionConfiguration,
      findTLSInspectionConfigurationByNameAndARN, tfresourceIsNotFound, h]
  · intro h
    simp [statusTLSInspectionConfiguration, statusProbeTLSInspectionConfiguration,
      findTLSInspectionConfigurationByNameAndARN, tfresourceIsNotFound, h]
  · intro out r h hr
    simp [statusTLSInspectionConfiguration, statusProbeTLSInspectionConfiguration,
      findTLSInspectionConfigurationByNameAndARN, h, hr]

/-- C6 witness: the prober theorem applied to a connection whose next
describe call reports not-found: one lookup, sentinel gone result. -/
theorem status_prober_witness :
    (statusTLSInspectionConfiguration ⟨fun _ => .err .resourceNotFoundException⟩ 0).2 = 0 + 1 ∧
    (statusTLSInspectionConfiguration ⟨fun _ => .err .resourceNotFoundException⟩ 0).1 =
      ⟨none, "", none⟩ :=
  ⟨(status_prober_single_lookup_and_gone_sentinel ⟨fun _ => .err .resourceNotFoundException⟩ 0).1,
   (status_prober_single_lookup_and_gone_sentinel ⟨fun _ => .err .resourceNotFoundException⟩ 0).2.1 rfl⟩

/-! ### Resource identity handling (Create, Read, Update) -/

structure resourceTLSInspectionConfigurationIdentity where
  id : Option String
  arn : Option String
deriving DecidableEq, Repr

/-- Source: Create sets both ARN and ID from the response ARN (with the
comment that the ID is set to the ARN since the ID value is not used for
describe, update, delete or list API calls). -/
def createAssignIdentity (resp : TLSInspectionConfigurationResponseData) :
    resourceTLSInspectionConfigurationIdentity :=
  { id := resp.tlsInspectionConfigurationArn
    arn := resp.tlsInspectionConfigurationArn }

/-- Source: Read sets both ARN and ID from the response ARN, repeating the
same comment. -/
def readAssignIdentity (resp : TLSInspectionConfigurationResponseData)
    (state : resourceTLSInspectionConfigurationIdentity) :
    resourceTLSInspectionConfigurationIdentity :=
  { state with id := resp.tlsInspectionConfigurationArn
               arn := resp.tlsInspectionConfigurationArn }

/-- Source: Update sets plan.ARN from the response ARN but plan.ID from the
response TLSInspectionConfigurationId field, not the ARN. -/
def updateAssignIdentity (resp : TLSInspectionConfigurationResponseData)
    (plan : resourceTLSInspectionConfigurationIdentity) :
    resourceTLSInspectionConfigurationIdentity :=
  { plan with arn := resp.tlsInspectionConfigurationArn
              id := resp.tlsInspectionConfigurationId }

/-- Concrete remote response in which the resource id differs from the ARN,
as the AWS API always reports (the id is a short identifier, the ARN the
full resource name). -/
def tlsExampleResponse : TLSInspectionConfigurationResponseData :=
  { tlsInspectionConfigurationArn :=
      some "arn:aws:network-firewall:us-east-1:123456789012:tls-configuration/example"
    tlsInspectionConfigurationId := some "a1b2c3d4"
    tlsInspectionConfigurationName := some "example"
    tlsInspectionConfigurationStatus := some "ACTIVE"
    description := none
    numberOfAssociations := some 0
    lastModifiedTime := none }

/-! ### Claim C2 -/

/-- C2: the claim that the id assigned at creation (the ARN) is never changed
by a later operation is contradicted by the Update path.  At a concrete
response whose id field differs from its ARN, Create and Read keep id equal
to the ARN, but an Update that issues the mutating call overwrites id with
the response resource id, so the id changes, against the comments in Create
and Read that the id is the ARN. -/
theorem update_overwrites_id_with_resource_id :
    (createAssignIdentity tlsExampleResponse).id =
      (createAssignIdentity tlsExampleResponse).arn ∧
    (readAssignIdentity tlsExampleResponse (createAssignIdentity tlsExampleResponse)).id =
      (createAssignIdentity tlsExampleResponse).id ∧
    (updateAssignIdentity tlsExampleResponse (createAssignIdentity tlsExampleResponse)).id ≠
      (createAssignIdentity tlsExampleResponse).id := by decide

/-! ### Claim C5 -/

structure tlsCreateComputedAttrs where
  lastModifiedTime : Option String
  numberOfAssociations : Option Int
  status : Option String
deriving DecidableEq, Repr

/-- Source: the read-after-write of the Create path.  The error returned by
the finder is discarded without branching and readComputed is dereferenced
unconditionally to set the computed attributes; none models the nil
readComputed pointer whose dereference is a fault in Go. -/
def createReadAfterWrite (wire : DescribeResult) : Option tlsCreateComputedAttrs :=
  match findTLSInspectionConfigurationByNameAndARN wire with
  | .error _ => none
  | .ok out =>
      some { lastModifiedTime :=
               out.tlsInspectionConfigurationResponse.bind (fun r => r.lastModifiedTime)
             numberOfAssociations :=
               out.tlsInspectionConfigurationResponse.bind (fun r => r.numberOfAssociations)
             status :=
               out.tlsInspectionConfigurationResponse.bind
                 (fun r => r.tlsInspectionConfigurationStatus) }

/-- C5: when the read performed immediately after a successful create reports
not-found, the finder yields the distinguished not-found error, yet the
Create path has no value to dereference (the result the code dereferences is
nil), contradicting the claim that the not-found is absorbed without a
fault: the fault happens before the create poll loop ever runs. -/
theorem create_read_after_write_discards_not_found :
    findTLSInspectionConfigurationByNameAndARN (.err .resourceNotFoundException) =
      .error (.notFoundError .resourceNotFoundException) ∧
    createReadAfterWrite (.err .resourceNotFoundException) = none := ⟨rfl, rfl⟩

/-! ### Bounded poll loop (waitCreated / waitUpdated) -/

/-- Source: the statusChangePending constant of the resource file. -/
def statusChangePending : String := "Pending"

/-- SDK constant networkfirewall.ResourceStatusActive. -/
def resourceStatusActive : String := "ACTIVE"

structure StateChangeConf where
  pending : List String
  target : List String
  notFoundChecks : Nat
  continuousTargetOccurence : Nat

inductive ProbeOutcome
  | found (status : String)
  | notFound
  | probeError
deriving DecidableEq, Repr

inductive WaitResult
  | converged (probes : Nat)
  | failedNotFound (probes : Nat)
  | failedError (probes : Nat)
  | timedOut (probes : Nat)
deriving DecidableEq, Repr

/-- Modelled from the spec: the bounded poll loop behind the three wait
helpers (the retry StateChangeConf executor is an external dependency and is
not among the source files; the source supplies only its configuration).
Per the spec the loop re-probes on a fixed interval until the target status
has been observed the configured number of consecutive times; any observed
non-target status keeps polling and breaks the consecutive-target run; a
bounded number of consecutive not-found probes is tolerated before the loop
gives up; a probe error fails the poll; exhausting the supply of probes
(the deadline) times out.  The Nat arguments are: probes already issued,
consecutive not-found count, consecutive target count. -/
def runWait (conf : StateChangeConf) :
    List ProbeOutcome → Nat → Nat → Nat → WaitResult
  | [], i, _, _ => .timedOut i
  | p :: rest, i, nf, occ =>
      match p with
      | .probeError => .failedError (i + 1)
      | .notFound =>
          if conf.notFoundChecks ≤ nf + 1 then .failedNotFound (i + 1)
          else runWait conf rest (i + 1) (nf + 1) occ
      | .found s =>
          if conf.target.contains s then
            if conf.continuousTargetOccurence ≤ occ + 1 then .converged (i + 1)
            else runWait conf rest (i + 1) 0 (occ + 1)
          else runWait conf rest (i + 1) 0 0

/-- Source: the StateChangeConf of waitTLSInspectionConfigurationCreated: no
pending statuses, target ACTIVE, 20 not-found checks, two continuous target
occurrences. -/
def waitTLSInspectionConfigurationCreatedConf : StateChangeConf :=
  { pending := []
    target := [resourceStatusActive]
    notFoundChecks := 20
    continuousTargetOccurence := 2 }

/-- Source: the StateChangeConf of waitTLSInspectionConfigurationUpdated:
pending statuses Pending, target ACTIVE, 20 not-found checks, two continuous
target occurrences. -/
def waitTLSInspectionConfigurationUpdatedConf : StateChangeConf :=
  { pending := [statusChangePending]
    target := [resourceStatusActive]
    notFoundChecks := 20
    continuousTargetOccurence := 2 }

lemma updatedConf_not_contains_pending :
    waitTLSInspectionConfigurationUpdatedConf.target.contains statusChangePending = false := by
  decide

lemma updatedConf_contains_active :
    waitTLSInspectionConfigurationUpdatedConf.target.contains resourceStatusActive = true := by
  decide

lemma createdConf_contains_active :
    waitTLSInspectionConfigurationCreatedConf.target.contains resourceStatusActive = true := by
  decide

lemma runWait_pending_skip (N : Nat) (l : List ProbeOutcome) (i : Nat) :
    runWait waitTLSInspectionConfigurationUpdatedConf
      (List.replicate N (ProbeOutcome.found statusChangePending) ++ l) i 0 0 =
    runWait waitTLSInspectionConfigurationUpdatedConf l (i + N) 0 0 := by
  induction N generalizing i with
  | zero => simp
  | succ n ih =>
      rw [List.replicate_succ, List.cons_append]
      simp only [runWait, updatedConf_not_contains_pending, Bool.false_eq_true, if_false]
      rw [ih (i + 1)]
      have e1 : i + 1 + n = i + (n + 1) := by omega
      rw [e1]

lemma runWait_notfound_skip (k : Nat) (l : List ProbeOutcome) (i nf occ : Nat)
    (h : nf + k < 20) :
    runWait waitTLSInspectionConfigurationCreatedConf
      (List.replicate k ProbeOutcome.notFound ++ l) i nf occ =
    runWait waitTLSInspectionConfigurationCreatedConf l (i + k) (nf + k) occ := by
  induction k generalizing i nf with
  | zero => simp
  | succ n ih =>
      rw [List.replicate_succ, List.cons_append]
      have hlt : ¬ (waitTLSInspectionConfigurationCreatedConf.notFoundChecks ≤ nf + 1) := by
        simp only [waitTLSInspectionConfigurationCreatedConf]
        omega
      simp only [runWait, if_neg hlt]
      rw [ih (i + 1) (nf + 1) (by omega)]
      have e1 : i + 1 + n = i + (n + 1) := by omega
      have e2 : nf + 1 + n = nf + (n + 1) := by omega
      rw [e1, e2]

/-! ### Claim C7 -/

/-- C7: the update poll declares convergence only after two consecutive
probes observe the ACTIVE target.  A run of N pending probes followed by
target probes converges exactly at the two-consecutive threshold, after
N + 2 probes; with only a single trailing target observation the loop is
still polling when the deadline arrives; and a target observation followed
by a pending status resets the consecutive-target count, so convergence
needs two further consecutive target probes. -/
theorem update_poll_two_consecutive_target :
    (∀ N : Nat,
      runWait waitTLSInspectionConfigurationUpdatedConf
        (List.replicate N (ProbeOutcome.found statusChangePending) ++
          [ProbeOutcome.found resourceStatusActive, ProbeOutcome.found resourceStatusActive])
        0 0 0 = .converged (N + 2)) ∧
    (∀ N : Nat,
      runWait waitTLSInspectionConfigurationUpdatedConf
        (List.replicate N (ProbeOutcome.found statusChangePending) ++
          [ProbeOutcome.found resourceStatusActive]) 0 0 0 = .timedOut (N + 1)) ∧
    runWait waitTLSInspectionConfigurationUpdatedConf
      [ProbeOutcome.found resourceStatusActive, ProbeOutcome.found statusChangePending,
        ProbeOutcome.found resourceStatusActive, ProbeOutcome.found resourceStatusActive]
      0 0 0 = .converged 4 := by
  refine ⟨?_, ?_, by decide⟩
  · intro N
    rw [runWait_pending_skip N _ 0]
    simp only [runWait, updatedConf_contains_active, if_true]
    have h1 : ¬ (waitTLSInspectionConfigurationUpdatedConf.continuousTargetOccurence ≤ 0 + 1) := by
      simp only [waitTLSInspectionConfigurationUpdatedConf]
      omega
    have h2 : waitTLSInspectionConfigurationUpdatedConf.continuousTargetOccurence ≤ 1 + 1 := by
      simp only [waitTLSInspectionConfigurationUpdatedConf]
      omega
    rw [if_neg h1]
    simp only [runWait, updatedConf_contains_active, if_true, if_pos h2]
    have e : 0 + N + 1 + 1 = N + 2 := by omega
    rw [e]
  · intro N
    rw [runWait_pending_skip N _ 0]
    simp only [runWait, updatedConf_contains_active, if_true]
    have h1 : ¬ (waitTLSInspectionConfigurationUpdatedConf.continuousTargetOccurence ≤ 0 + 1) := by
      simp only [waitTLSInspectionConfigurationUpdatedConf]
      omega
    rw [if_neg h1]
    show WaitResult.timedOut (0 + N + 1) = WaitResult.timedOut (N + 1)
    congr 1
    omega

/-! ### Claim C8 -/

/-- C8: during create polling up to 19 consecutive not-found probes are
tolerated (the loop keeps polling and can still converge once the object
appears), and the 20th consecutive not-found probe makes the poll give up
with the not-found failure instead of continuing. -/
theorem create_poll_not_found_bound :
    (∀ k, k < 20 →
      runWait waitTLSInspectionConfigurationCreatedConf
        (List.replicate k ProbeOutcome.notFound ++
          [ProbeOutcome.found resourceStatusActive, ProbeOutcome.found resourceStatusActive])
        0 0 0 = .converged (k + 2)) ∧
    (∀ l, runWait waitTLSInspectionConfigurationCreatedConf
        (List.replicate 20 ProbeOutcome.notFound ++ l) 0 0 0 = .failedNotFound 20) := by
  constructor
  · intro k hk
    rw [runWait_notfound_skip k _ 0 0 0 (by omega)]
    simp only [runWait, createdConf_contains_active, if_true]
    have h1 : ¬ (waitTLSInspectionConfigurationCreatedConf.continuousTargetOccurence ≤ 0 + 1) := by
      simp only [waitTLSInspectionConfigurationCreatedConf]
      omega
    have h2 : waitTLSInspectionConfigurationCreatedConf.continuousTargetOccurence ≤ 1 + 1 := by
      simp only [waitTLSInspectionConfigurationCreatedConf]
      omega
    rw [if_neg h1]
    simp only [runWait, createdConf_contains_active, if_true, if_pos h2]
    have e : 0 + k + 1 + 1 = k + 2 := by omega
    rw [e]
  · intro l
    have hsplit : List.replicate 20 ProbeOutcome.notFound ++ l =
        List.replicate 19 ProbeOutcome.notFound ++ (ProbeOutcome.notFound :: l) := by
      rw [show (20 : Nat) = 19 + 1 from rfl, List.replicate_add, List.append_assoc,
        List.replicate_one, List.singleton_append]
    rw [hsplit, runWait_notfound_skip 19 _ 0 0 0 (by omega)]
    have hge : waitTLSInspectionConfigurationCreatedConf.notFoundChecks ≤ 19 + 1 := by
      simp only [waitTLSInspectionConfigurationCreatedConf]
      omega
    simp only [runWait, if_pos hge]

/-- C8 witness: three consecutive not-found probes are below the bound and
the poll still converges once two target probes follow. -/
theorem create_poll_not_found_bound_witness :
    3 < 20 ∧
    runWait waitTLSInspectionConfigurationCreatedConf
      (List.replicate 3 ProbeOutcome.notFound ++
        [ProbeOutcome.found resourceStatusActive, ProbeOutcome.found resourceStatusActive])
      0 0 0 = .converged (3 + 2) :=
  ⟨by decide, create_poll_not_found_bound.1 3 (by decide)⟩

/-! ### Service Catalog mutating calls with bounded retry -/

inductive SAError
  | profileDoesNotExist
  | resourceInUse
  | resourceNotFound
  | other (msg : String)
deriving DecidableEq, Repr

inductive SACallResult
  | success
  | failure (e : SAError)
deriving DecidableEq, Repr

inductive RetryDecision
  | done
  | retry (e : SAError)
  | fatal (e : SAError)
deriving DecidableEq, Repr

/-- Source: the retry closure bodies of resourceServiceActionCreate and
resourceServiceActionUpdate: an error whose text contains profile does not
exist is retryable, any other error is non-retryable, success ends the
loop. -/
def createUpdateRetryClassify (r : SACallResult) : RetryDecision :=
  match r with
  | .success => .done
  | .failure .profileDoesNotExist => .retry .profileDoesNotExist
  | .failure e => .fatal e

/-- Source: the retry closure body of resourceServiceActionDelete: a
ResourceInUseException is retryable, any other error is non-retryable. -/
def deleteRetryClassify (r : SACallResult) : RetryDecision :=
  match r with
  | .success => .done
  | .failure .resourceInUse => .retry .resourceInUse
  | .failure e => .fatal e

inductive RetryOutcome
  | ok
  | err (e : SAError)
  | timedOut
deriving DecidableEq, Repr

/-- Modelled from the spec: the bounded retry helper retry.RetryContext (an
external dependency; the source supplies only the classifier closures).  The
mutating call is attempted, the closure classifies the result, a retryable
error is re-attempted while deadline budget remains and surfaces as a
timeout on exhaustion.  Fuel is the number of attempts the deadline allows;
the call argument maps an attempt index to the remote result of that
attempt; the result carries the number of attempts issued. -/
def retryContext (classify : SACallResult → RetryDecision)
    (call : Nat → SACallResult) : Nat → Nat → RetryOutcome × Nat
  | 0, n => (.timedOut, n)
  | fuel + 1, n =>
      match classify (call n) with
      | .done => (.ok, n + 1)
      | .fatal e => (.err e, n + 1)
      | .retry _ => retryContext classify call fuel (n + 1)

inductive FinalOutcome
  | ok
  | err (e : SAError)
deriving DecidableEq, Repr

/-- Source: the shared post-loop pattern of the three service action
mutating paths: run the bounded retry loop; when it timed out, issue exactly
one more unconditional attempt of the same call and surface that attempt's
result; otherwise surface the loop's result.  No attempt follows the
unconditional one. -/
def serviceActionMutate (classify : SACallResult → RetryDecision)
    (call : Nat → SACallResult) (fuel : Nat) : FinalOutcome × Nat :=
  match retryContext classify call fuel 0 with
  | (.timedOut, n) =>
      (match call n with
       | .success => FinalOutcome.ok
       | .failure e => FinalOutcome.err e, n + 1)
  | (.ok, n) => (.ok, n)
  | (.err e, n) => (.err e, n)

lemma retryContext_always_retry (classify : SACallResult → RetryDecision)
    (call : Nat → SACallResult) (h : ∀ k, ∃ e, classify (call k) = .retry e) :
    ∀ fuel n, retryContext classify call fuel n = (.timedOut, n + fuel) := by
  intro fuel
  induction fuel with
  | zero => intro n; simp [retryContext]
  | succ m ih =>
      intro n
      obtain ⟨e, he⟩ := h n
      simp only [retryContext, he]
      rw [ih (n + 1)]
      have e1 : n + 1 + m = n + (m + 1) := by omega
      rw [e1]

lemma retryContext_progress (classify : SACallResult → RetryDecision)
    (call : Nat → SACallResult) :
    ∀ fuel n, (retryContext classify call fuel n).1 = RetryOutcome.timedOut ∨
      n + 1 ≤ (retryContext classify call fuel n).2 := by
  intro fuel
  induction fuel with
  | zero => intro n; left; rfl
  | succ m ih =>
      intro n
      rcases hc : classify (call n) with _ | e | e
      · right
        simp [retryContext, hc]
      · rcases ih (n + 1) with h | h
        · left
          simp [retryContext, hc, h]
        · right
          simp only [retryContext, hc]
          omega
      · right
        simp [retryContext, hc]

lemma serviceActionMutate_count_pos (classify : SACallResult → RetryDecision)
    (call : Nat → SACallResult) (fuel : Nat) :
    1 ≤ (serviceActionMutate classify call fuel).2 := by
  unfold serviceActionMutate
  have hp := retryContext_progress classify call fuel 0
  rcases hr : retryContext classify call fuel 0 with ⟨out, n⟩
  rw [hr] at hp
  cases out with
  | timedOut =>
      simp only []
      omega
  | ok =>
      rcases hp with h | h
      · simp at h
      · simpa using h
  | err e =>
      rcases hp with h | h
      · simp at h
      · simpa using h

/-! ### Claim C10 -/

/-- C10: when the bounded retry loop of a service action mutating call
exhausts its deadline (every attempt hit the retryable error signature),
the loop reports a timeout after exactly fuel attempts, and the full path
then issues exactly one additional unconditional attempt — total attempts
fuel + 1 — surfacing that attempt's error; this holds for the create/update
classifier and for the delete classifier. -/
theorem mutating_retry_final_attempt :
    ∀ fuel : Nat,
      (retryContext createUpdateRetryClassify
          (fun _ => .failure .profileDoesNotExist) fuel 0 = (.timedOut, fuel) ∧
        serviceActionMutate createUpdateRetryClassify
          (fun _ => .failure .profileDoesNotExist) fuel =
          (.err .profileDoesNotExist, fuel + 1)) ∧
      (retryContext deleteRetryClassify
          (fun _ => .failure .resourceInUse) fuel 0 = (.timedOut, fuel) ∧
        serviceActionMutate deleteRetryClassify
          (fun _ => .failure .resourceInUse) fuel =
          (.err .resourceInUse, fuel + 1)) := by
  intro fuel
  have h1 := retryContext_always_retry createUpdateRetryClassify
    (fun _ => .failure .profileDoesNotExist) (fun k => ⟨.profileDoesNotExist, rfl⟩) fuel 0
  have h2 := retryContext_always_retry deleteRetryClassify
    (fun _ => .failure .resourceInUse) (fun k => ⟨.resourceInUse, rfl⟩) fuel 0
  rw [Nat.zero_add] at h1 h2
  refine ⟨⟨h1, ?_⟩, ⟨h2, ?_⟩⟩
  · unfold serviceActionMutate
    rw [h1]
  · unfold serviceActionMutate
    rw [h2]

/-! ### Claim C9 -/

inductive TLSDeleteOutcome
  | convergedNoError
  | failed (e : AwsError)
  | proceedToWait
deriving DecidableEq, Repr

/-- Source: the Delete method of the TLS inspection configuration resource:
a ResourceNotFoundException from the delete call itself returns immediately
with no diagnostics (never reaching the delete wait); any other error is a
diagnostic; success proceeds to the delete poll. -/
def tlsDeleteStep (callErr : Option AwsError) : TLSDeleteOutcome :=
  match callErr with
  | some .resourceNotFoundException => .convergedNoError
  | some e => .failed e
  | none => .proceedToWait

inductive SADeleteOutcome
  | doneNoError
  | failed (e : SAError)
  | proceedToWait
deriving DecidableEq, Repr

/-- Source: resourceServiceActionDelete: runs the bounded retry loop around
DeleteServiceAction with the delete classifier (including the one
unconditional post-timeout attempt); a ResourceNotFoundException outcome is
checked before the generic error check and returns with no error; any other
error is a diagnostic; success proceeds to the delete wait. -/
def resourceServiceActionDeleteStep (call : Nat → SACallResult) (fuel : Nat) :
    SADeleteOutcome × Nat :=
  match serviceActionMutate deleteRetryClassify call fuel with
  | (.err .resourceNotFound, n) => (.doneNoError, n)
  | (.err e, n) => (.failed e, n)
  | (.ok, n) => (.proceedToWait, n)

/-- C9: a not-found signal on the delete call itself converges immediately
with no error reported, in both resources: the TLS delete returns at once
without diagnostics, and the service action delete classifies the not-found
as non-retryable, makes no further attempt (exactly one call) and returns
without error whatever deadline budget remained. -/
theorem idempotent_delete_not_found :
    tlsDeleteStep (some .resourceNotFoundException) = .convergedNoError ∧
    ∀ fuel : Nat,
      resourceServiceActionDeleteStep (fun _ => .failure .resourceNotFound) (fuel + 1) =
        (.doneNoError, 1) := by
  refine ⟨rfl, ?_⟩
  intro fuel
  simp [resourceServiceActionDeleteStep, serviceActionMutate, retryContext,
    deleteRetryClassify]

/-! ### Claim C4 -/

structure resourceTLSInspectionConfigurationDataModel where
  description : Option String
  tlsInspectionConfiguration : Option (List tlsInspectionConfigurationData)
  encryptionConfiguration : Option (List encryptionConfigurationData)
  arn : Option String
  id : Option String
  name : Option String
  lastModifiedTime : Option String
  numberOfAssociations : Option Int
  status : Option String
  updateToken : Option String
deriving DecidableEq, Repr

/-- Source: the change guard of the TLS inspection configuration Update: the
mutating call is issued only when the description, the nested
tls_inspection_configuration tree or the encryption_configuration differ
between plan and state; no other field is consulted. -/
def tlsUpdateRequiresCall
    (plan state : resourceTLSInspectionConfigurationDataModel) : Bool :=
  !decide (plan.description = state.description) ||
  !decide (plan.tlsInspectionConfiguration = state.tlsInspectionConfiguration) ||
  !decide (plan.encryptionConfiguration = state.encryptionConfiguration)

/-- Number of mutating remote calls the TLS Update path issues: one inside
the guard, none otherwise (the update wait that always follows only
probes). -/
def tlsUpdateMutatingCalls
    (plan state : resourceTLSInspectionConfigurationDataModel) : Nat :=
  if tlsUpdateRequiresCall plan state then 1 else 0

structure serviceActionUpdateChanges where
  acceptLanguage : Bool
  definition : Bool
  description : Bool
  name : Bool
deriving DecidableEq, Repr

structure UpdateServiceActionInput where
  id : String
  acceptLanguage : Option String
  definition : Option ServiceActionDefinitionPayload
  description : Option String
  name : Option String
deriving DecidableEq, Repr

structure serviceActionUpdateData where
  id : String
  acceptLanguage : String
  definition : Option serviceActionDefinitionMap
  description : String
  name : String
  changes : serviceActionUpdateChanges
deriving DecidableEq, Repr

/-- Source: resourceServiceActionUpdate builds the update input with only
the fields reported changed by HasChange (the id is always present). -/
def resourceServiceActionUpdateInput (d : serviceActionUpdateData) :
    UpdateServiceActionInput :=
  { id := d.id
    acceptLanguage := if d.changes.acceptLanguage then some d.acceptLanguage else none
    definition := if d.changes.definition
      then expandServiceActionDefinition d.definition else none
    description := if d.changes.description then some d.description else none
    name := if d.changes.name then some d.name else none }

/-- Source: resourceServiceActionUpdate then always runs the bounded retry
loop around UpdateServiceAction: there is no guard around the call, so the
mutating call is issued even when no tracked field changed. -/
def resourceServiceActionUpdateRun (d : serviceActionUpdateData)
    (call : Nat → SACallResult) (fuel : Nat) :
    UpdateServiceActionInput × (FinalOutcome × Nat) :=
  (resourceServiceActionUpdateInput d,
   serviceActionMutate createUpdateRetryClassify call fuel)

/-- Update invocation of the service action resource in which no tracked
field changed. -/
def serviceActionNoChangesExample : serviceActionUpdateData :=
  { id := "act-1"
    acceptLanguage := "en"
    definition := some { assumeRole := none, name := some "AWS-RestartEC2Instance",
                         parameters := none, version := some "1",
                         type := some "SSM_AUTOMATION" }
    description := "restart"
    name := "restart"
    changes := { acceptLanguage := false, definition := false,
                 description := false, name := false } }

/-- C4 counterexample: an Update invocation of the service action resource
whose declared configuration equals the recorded state on every tracked
field still issues one mutating UpdateServiceAction call (with only the id
in the input), so the claim that zero mutating calls are issued fails for
that resource. -/
theorem service_action_update_calls_without_changes :
    (resourceServiceActionUpdateRun serviceActionNoChangesExample
        (fun _ => .success) 5).2.2 = 1 ∧
    (1 : Nat) ≠ 0 ∧
    (resourceServiceActionUpdateRun serviceActionNoChangesExample
        (fun _ => .success) 5).1 =
      { id := "act-1", acceptLanguage := none, definition := none,
        description := none, name := none } := by decide

/-- C4 (amended): the TLS inspection configuration Update issues zero
mutating calls whenever plan and state agree on the three tracked fields
(description, nested definition tree, encryption settings) — the
quantification lets every unmodeled computed field differ, so computed
drift alone never triggers a call — while the service action Update always
issues at least one mutating call, even with an empty change set. -/
theorem update_change_detection :
    (∀ plan state : resourceTLSInspectionConfigurationDataModel,
      plan.description = state.description →
      plan.tlsInspectionConfiguration = state.tlsInspectionConfiguration →
      plan.encryptionConfiguration = state.encryptionConfiguration →
      tlsUpdateMutatingCalls plan state = 0) ∧
    (∀ (d : serviceActionUpdateData) (call : Nat → SACallResult) (fuel : Nat),
      1 ≤ (resourceServiceActionUpdateRun d call fuel).2.2) := by
  constructor
  · intro plan state h1 h2 h3
    simp [tlsUpdateMutatingCalls, tlsUpdateRequiresCall, h1, h2, h3]
  · intro d call fuel
    exact serviceActionMutate_count_pos createUpdateRetryClassify call fuel

/-- Plan record of the C4 witness: tracked fields as recorded, computed
fields freshly drifted. -/
def tlsUpdatePlanExample : resourceTLSInspectionConfigurationDataModel :=
  { description := some "inspects inbound tls"
    tlsInspectionConfiguration := some [{ serverCertificateConfiguration := none }]
    encryptionConfiguration := some [{ type := some "AWS_OWNED_KMS_KEY",
                                       keyId := some "AWS_OWNED_KMS_KEY" }]
    arn := some "arn:aws:network-firewall:us-east-1:123456789012:tls-configuration/example"
    id := some "arn:aws:network-firewall:us-east-1:123456789012:tls-configuration/example"
    name := some "example"
    lastModifiedTime := some "2024-05-02T10:00:00Z"
    numberOfAssociations := some 2
    status := some "ACTIVE"
    updateToken := some "token-2" }

/-- State record of the C4 witness: same tracked fields, older computed
fields. -/
def tlsUpdateStateExample : resourceTLSInspectionConfigurationDataModel :=
  { description := some "inspects inbound tls"
    tlsInspectionConfiguration := some [{ serverCertificateConfiguration := none }]
    encryptionConfiguration := some [{ type := some "AWS_OWNED_KMS_KEY",
                                       keyId := some "AWS_OWNED_KMS_KEY" }]
    arn := some "arn:aws:network-firewall:us-east-1:123456789012:tls-configuration/example"
    id := some "arn:aws:network-firewall:us-east-1:123456789012:tls-configuration/example"
    name := some "example"
    lastModifiedTime := some "2024-05-01T09:00:00Z"
    numberOfAssociations := some 1
    status := some "PENDING"
    updateToken := some "token-1" }

/-- C4 witness: equal tracked fields with drifted computed fields, zero
mutating calls. -/
theorem update_change_detection_witness :
    (tlsUpdatePlanExample.description = tlsUpdateStateExample.description ∧
      tlsUpdatePlanExample.tlsInspectionConfiguration =
        tlsUpdateStateExample.tlsInspectionConfiguration ∧
      tlsUpdatePlanExample.encryptionConfiguration =
        tlsUpdateStateExample.encryptionConfiguration ∧
      tlsUpdatePlanExample.status ≠ tlsUpdateStateExample.status) ∧
    tlsUpdateMutatingCalls tlsUpdatePlanExample tlsUpdateStateExample = 0 :=
  ⟨by decide, update_change_detection.1 tlsUpdatePlanExample tlsUpdateStateExample
    (by decide) (by decide) (by decide)⟩
